import Mathlib

/-!
Verification of the cluster supervisor module (microkernel-mod-cluster).

The module is embedded shallowly: each operation of the source
(the prepare gate and startup, the lifecycle event handlers, the
worker-side message handler, the two presentation latches, and the
stop operation with its graceful phase and repeating drain loop) is
a Lean function producing the list of externally observable effects
the source emits, plus, for stop, the settlement of its promise.
-/

namespace ClusterMod

/-- The configuration options the module reads from the kernel:
the integer cluster instance count (default 0) and the two daemon
flags that make the module inert. -/
structure Options where
  cluster : Int
  daemon : Bool
  daemon_kill : Bool
deriving DecidableEq, Repr

/-- Log severities used by the module. -/
inductive Severity where
  | debug
  | trace
  | info
deriving DecidableEq, Repr

/-- A snapshot of one worker record as the master sees it:
its id and pid, the suicide flag (set when the supervisor itself
initiated termination), IPC connection state, death state, and
whether a kill signal delivery to it would currently fail. -/
structure WorkerInfo where
  id : Nat
  pid : Nat
  suicide : Bool
  connected : Bool
  dead : Bool
  killFails : Bool
deriving DecidableEq, Repr

/-- Externally observable effects emitted by the module:
log lines (facility, severity, message), publications to the
kernel resource store, event and latch registrations, fork requests,
shutdown directives sent to workers, IPC disconnects, forced kill
attempts (recording whether delivery failed and was swallowed), and
the worker-side shutdown trigger. -/
inductive Effect where
  | log (facility : String) (sev : Severity) (msg : String)
  | publishCluster
  | publishProcmode (mode : String)
  | onRegister (event : String)
  | latchRegister (hook : String)
  | subscribeMessages
  | fork
  | send (workerId : Nat) (msg : String)
  | disconnect (workerId : Nat)
  | killAttempt (workerId : Nat) (failed : Bool)
  | shutdownTrigger (reason : String)
deriving DecidableEq, Repr

/-- The per-worker message tag produced by the sprintf calls
of the source: "worker #ID (pid: PID): REST". -/
def workerTag (wid wpid : Nat) (rest : String) : String :=
  "worker #" ++ toString wid ++ " (pid: " ++ toString wpid ++ "): " ++ rest

/-- The process mode string the source computes from cluster.isMaster. -/
def modeOf (isMaster : Bool) : String :=
  if isMaster then "master" else "worker"

/-- The prepare operation: gated on a nonzero cluster option and on
both daemon flags being unset; then publishes the cluster handle and
the process mode, and in master mode registers the five lifecycle
event handlers, logs the startup fork announcement and issues one
fork request per loop iteration of the startup loop (the loop runs
cluster.toNat times, since a for loop from 0 below a negative bound
runs zero times), while in worker mode it subscribes to IPC messages;
finally it registers the two presentation latches. -/
def prepare (opts : Options) (isMaster : Bool) : List Effect :=
  if opts.cluster = 0 then []
  else if opts.daemon || opts.daemon_kill then []
  else
    let mode := modeOf isMaster
    [Effect.publishCluster, Effect.publishProcmode mode] ++
    (if isMaster then
      [Effect.onRegister "fork", Effect.onRegister "online",
       Effect.onRegister "listening", Effect.onRegister "disconnect",
       Effect.onRegister "exit",
       Effect.log "cluster" Severity.info
         ("forking " ++ toString opts.cluster ++ " WORKER processes")] ++
      List.replicate opts.cluster.toNat Effect.fork
    else
      [Effect.subscribeMessages]) ++
    [Effect.latchRegister "logger:msg", Effect.latchRegister "title:title"]

/-- The resource-store value of ctx:procmode after prepare ran:
unchanged when prepare is gated off, otherwise the resolved mode. -/
def procmodeAfter (init : Option String) (opts : Options) (isMaster : Bool) :
    Option String :=
  if opts.cluster = 0 then init
  else if opts.daemon || opts.daemon_kill then init
  else some (modeOf isMaster)

/-- The adverb the exit handler picks from the suicide flag. -/
def exitWay (w : WorkerInfo) : String :=
  if w.suicide then "expectedly" else "unexpectedly"

/-- The exit event handler of the master: one trace log describing the
termination (by signal, by nonzero exit code, or with success), then,
only when the worker did not terminate on supervisor request, one info
log announcing the re-fork followed by one replacement fork request. -/
def onExit (w : WorkerInfo) (code : Int) (signal : Option String) :
    List Effect :=
  let way := exitWay w
  (match signal with
   | some sig =>
       [Effect.log "cluster" Severity.trace
         (workerTag w.id w.pid (way ++ " terminated by signal " ++ sig))]
   | none =>
       if code ≠ 0 then
         [Effect.log "cluster" Severity.trace
           (workerTag w.id w.pid
             (way ++ " terminated due to error (exit code " ++ toString code ++ ")"))]
       else
         [Effect.log "cluster" Severity.trace
           (workerTag w.id w.pid (way ++ " terminated with success"))]) ++
  (if w.suicide then []
   else
     [Effect.log "cluster" Severity.info
        "re-forking WORKER process after unexpected termination",
      Effect.fork])

/-- The worker-side IPC message handler: on the literal shutdown
directive it logs receipt at trace severity and triggers the
kernel shutdown service; any other message does nothing. -/
def onMessage (wid wpid : Nat) (msg : String) : List Effect :=
  if msg = "shutdown" then
    [Effect.log "cluster" Severity.trace
       (workerTag wid wpid "received shutdown message"),
     Effect.shutdownTrigger "received MASTER shutdown message"]
  else []

/-- The logger:msg latch: prefix every log line with the role tag,
chosen from cluster.isWorker and the worker id. -/
def loggerMsgLatch (isWorker : Bool) (wid : Nat) (msg : String) : String :=
  let id := if isWorker then "WORKER-" ++ toString wid else "MASTER"
  "[" ++ id ++ "]: " ++ msg

/-- The title:title latch: append the role tag to the process title,
chosen from the resolved mode string and the worker id. -/
def titleTitleLatch (mode : String) (wid : Nat) (title : String) : String :=
  if mode = "master" then title ++ " [MASTER]"
  else if mode = "worker" then title ++ " [WORKER-" ++ toString wid ++ "]"
  else title

/-- The graceful phase of stop: for every worker currently in the
pool, when its IPC channel is connected, send the shutdown directive
and then disconnect the channel; otherwise touch it not at all. -/
def gracefulPhase (pool : List WorkerInfo) : List Effect :=
  pool.flatMap (fun w =>
    if w.connected then [Effect.send w.id "shutdown", Effect.disconnect w.id]
    else [])

/-- One tick of the drain interval: when the pool is empty the
interval is cleared and the promise resolves (with success, the sole
settlement the source can produce, since the reject callback is never
used); otherwise every worker not yet dead gets a trace log and a
kill attempt whose delivery failure, if any, is caught and swallowed. -/
def drainTick (pool : List WorkerInfo) :
    List Effect × Option (Except String Unit) :=
  if pool = [] then ([], some (Except.ok ()))
  else
    (pool.flatMap (fun w =>
      if w.dead then []
      else
        [Effect.log "cluster" Severity.trace
           (workerTag w.id w.pid "to be killed now"),
         Effect.killAttempt w.id w.killFails]),
     none)

/-- The drain loop run for a bounded number of ticks over a schedule
of pool snapshots (the pool evolves externally between ticks as
workers die): it accumulates tick effects and stops at the first tick
that settles the promise. -/
def drainRun (pools : Nat → List WorkerInfo) :
    Nat → Nat → List Effect × Option (Except String Unit)
  | 0, _ => ([], none)
  | Nat.succ fuel, t =>
    let tick := drainTick (pools t)
    match tick.2 with
    | some r => (tick.1, some r)
    | none =>
      let rest := drainRun pools fuel (t + 1)
      (tick.1 ++ rest.1, rest.2)

/-- The stop operation: a no-op unless ctx:procmode is the master
mode and both daemon flags are unset; otherwise it logs the shutdown
announcement, runs the graceful phase over the current pool, and
starts the drain loop, whose settlement is the settlement of the
returned promise. -/
def stop (procmode : Option String) (opts : Options)
    (pools : Nat → List WorkerInfo) (fuel : Nat) :
    List Effect × Option (Except String Unit) :=
  if procmode ≠ some "master" then ([], none)
  else if opts.daemon || opts.daemon_kill then ([], none)
  else
    let r := drainRun pools fuel 0
    (Effect.log "cluster" Severity.info "shutdown WORKER processes" ::
       (gracefulPhase (pools 0) ++ r.1),
     r.2)

/-- Number of fork requests in an effect list. -/
def countForks : List Effect → Nat
  | [] => 0
  | Effect.fork :: rest => countForks rest + 1
  | _ :: rest => countForks rest

/-- Whether an effect is a log line at info severity. -/
def isInfoLog : Effect → Bool
  | Effect.log _ Severity.info _ => true
  | _ => false

/-- Number of shutdown directives sent to worker i in an effect list. -/
def sendsTo (i : Nat) : List Effect → Nat
  | [] => 0
  | Effect.send j _ :: rest => (if j = i then 1 else 0) + sendsTo i rest
  | _ :: rest => sendsTo i rest

/-- Number of IPC disconnects of worker i in an effect list. -/
def discsTo (i : Nat) : List Effect → Nat
  | [] => 0
  | Effect.disconnect j :: rest => (if j = i then 1 else 0) + discsTo i rest
  | _ :: rest => discsTo i rest

/-- Number of shutdown triggers in an effect list. -/
def countShutdownTriggers : List Effect → Nat
  | [] => 0
  | Effect.shutdownTrigger _ :: rest => countShutdownTriggers rest + 1
  | _ :: rest => countShutdownTriggers rest

/-- The subsequence of kill attempts in an effect list. -/
def killAttempts : List Effect → List Effect
  | [] => []
  | Effect.killAttempt j b :: rest => Effect.killAttempt j b :: killAttempts rest
  | _ :: rest => killAttempts rest

/-- The same worker snapshot with kill delivery made to succeed. -/
def clearKillFail (w : WorkerInfo) : WorkerInfo :=
  { w with killFails := false }

/-- Concatenation of the effects of n consecutive drain ticks
starting at tick t0. -/
def tickEffectsFrom (pools : Nat → List WorkerInfo) (t0 : Nat) :
    Nat → List Effect
  | 0 => []
  | Nat.succ n => (drainTick (pools t0)).1 ++ tickEffectsFrom pools (t0 + 1) n

/-- A concrete pool schedule: one connected live worker at tick 0,
gone from tick 1 on. -/
def poolsW : Nat → List WorkerInfo :=
  fun n => if n = 0 then [⟨1, 101, false, true, false, false⟩] else []

/-- A concrete two-worker pool: worker 1 connected, worker 2 not. -/
def poolC4 : List WorkerInfo :=
  [⟨1, 101, false, true, false, false⟩, ⟨2, 102, false, false, false, false⟩]

/-- The connected worker of poolC4. -/
def wC4 : WorkerInfo := ⟨1, 101, false, true, false, false⟩

/-- Claim C1: for every worker exit event observed by the master, a
Crashed exit (the supervisor had not marked the worker for shutdown,
so its suicide flag is unset) yields exactly one replacement fork and
exactly the single info log line announcing the re-fork, while a
Voluntary exit yields zero replacement forks and no info log. -/
theorem claim_C1 (w : WorkerInfo) (code : Int) (signal : Option String) :
    countForks (onExit w code signal) = (if w.suicide then 0 else 1) ∧
    (onExit w code signal).filter isInfoLog =
      (if w.suicide then []
       else [Effect.log "cluster" Severity.info
         "re-forking WORKER process after unexpected termination"]) := by
  unfold onExit
  cases hs : w.suicide <;> cases signal <;>
    simp [isInfoLog, countForks] <;>
    split <;> simp [isInfoLog, countForks]

theorem countForks_append (a b : List Effect) :
    countForks (a ++ b) = countForks a + countForks b := by
  induction a with
  | nil => simp [countForks]
  | cons e rest ih =>
    cases e <;> simp [countForks, ih]
    omega

theorem countForks_replicate (n : Nat) :
    countForks (List.replicate n Effect.fork) = n := by
  induction n with
  | zero => simp [countForks]
  | succ n ih => simp [List.replicate, countForks, ih]

/-- Claim C3: in master mode, with both daemon flags unset and a
configured positive instance count N, prepare issues exactly N fork
requests at startup. -/
theorem claim_C3 (opts : Options) (N : Nat) (hN : 0 < N)
    (hc : opts.cluster = (N : Int))
    (hd : opts.daemon = false) (hk : opts.daemon_kill = false) :
    countForks (prepare opts true) = N := by
  have hne : opts.cluster ≠ 0 := by
    rw [hc]
    exact_mod_cast Nat.pos_iff_ne_zero.mp hN
  unfold prepare
  rw [if_neg hne, hd, hk]
  simp only [Bool.or_self, Bool.false_eq_true, if_false, if_true]
  rw [countForks_append, countForks_append, countForks_append,
    countForks_replicate, hc]
  simp [countForks]

theorem claim_C3_witness :
    0 < 3 ∧ (⟨3, false, false⟩ : Options).cluster = ((3 : Nat) : Int) ∧
    countForks (prepare ⟨3, false, false⟩ true) = 3 :=
  ⟨by decide, by decide, claim_C3 ⟨3, false, false⟩ 3 (by decide) (by decide) rfl rfl⟩

/-- Claim C6: in worker mode, an inbound IPC message equal to the
shutdown directive literal makes the agent log receipt and trigger
the kernel shutdown exactly once, while any other inbound message
produces no effect at all. -/
theorem claim_C6 (wid wpid : Nat) (msg : String) :
    (msg = "shutdown" →
      countShutdownTriggers (onMessage wid wpid msg) = 1 ∧
      onMessage wid wpid msg =
        [Effect.log "cluster" Severity.trace
           (workerTag wid wpid "received shutdown message"),
         Effect.shutdownTrigger "received MASTER shutdown message"]) ∧
    (msg ≠ "shutdown" → onMessage wid wpid msg = []) := by
  constructor
  · intro h
    simp [onMessage, h, countShutdownTriggers]
  · intro h
    simp [onMessage, h]

theorem claim_C6_witness :
    (("shutdown" : String) = "shutdown" →
      countShutdownTriggers (onMessage 3 103 "shutdown") = 1 ∧
      onMessage 3 103 "shutdown" =
        [Effect.log "cluster" Severity.trace
           (workerTag 3 103 "received shutdown message"),
         Effect.shutdownTrigger "received MASTER shutdown message"]) ∧
    (("shutdown" : String) ≠ "shutdown" → onMessage 3 103 "shutdown" = []) :=
  claim_C6 3 103 "shutdown"

/-- Claim C9: both presentation transforms are pure functions of the
resolved role, the worker id and the original text: the log latch
prepends the role prefix to the message and the title latch appends
the role tag to the title, in master mode and in worker mode alike. -/
theorem claim_C9 (isMaster : Bool) (wid : Nat) (msg title : String) :
    loggerMsgLatch (!isMaster) wid msg =
      (if isMaster then "[MASTER]: "
       else "[WORKER-" ++ toString wid ++ "]: ") ++ msg ∧
    titleTitleLatch (modeOf isMaster) wid title =
      title ++ (if isMaster then " [MASTER]"
                else " [WORKER-" ++ toString wid ++ "]") := by
  have hlit : ("[" ++ "WORKER-" : String) = "[WORKER-" := by decide
  cases isMaster
  · constructor
    · simp only [loggerMsgLatch, Bool.not_false, if_true, String.append_assoc,
        Bool.false_eq_true, if_false]
      conv_lhs => rw [← String.append_assoc]
      rw [hlit]
    · simp [titleTitleLatch, modeOf, String.append_assoc]
  · constructor
    · simp [loggerMsgLatch]
    · simp [titleTitleLatch, modeOf]

/-- Claim C10: with a configured cluster value strictly below zero and
both daemon flags unset, prepare in master mode activates the core
(publishes the cluster handle and the resolved master mode, registers
all five lifecycle event handlers and both presentation latches), yet
the startup loop issues zero fork requests. -/
theorem claim_C10 (opts : Options) (hc : opts.cluster < 0)
    (hd : opts.daemon = false) (hk : opts.daemon_kill = false) :
    countForks (prepare opts true) = 0 ∧
    Effect.publishCluster ∈ prepare opts true ∧
    Effect.publishProcmode "master" ∈ prepare opts true ∧
    Effect.onRegister "fork" ∈ prepare opts true ∧
    Effect.onRegister "online" ∈ prepare opts true ∧
    Effect.onRegister "listening" ∈ prepare opts true ∧
    Effect.onRegister "disconnect" ∈ prepare opts true ∧
    Effect.onRegister "exit" ∈ prepare opts true ∧
    Effect.latchRegister "logger:msg" ∈ prepare opts true ∧
    Effect.latchRegister "title:title" ∈ prepare opts true := by
  have hne : opts.cluster ≠ 0 := by omega
  have htn : opts.cluster.toNat = 0 := Int.toNat_of_nonpos (le_of_lt hc)
  unfold prepare
  rw [if_neg hne, hd, hk]
  simp only [Bool.or_self, Bool.false_eq_true, if_false, if_true, htn,
    List.replicate]
  refine ⟨?_, ?_⟩
  · rw [countForks_append, countForks_append, countForks_append]
    simp [countForks]
  · simp [modeOf]

theorem claim_C10_witness :
    (⟨-2, false, false⟩ : Options).cluster < 0 ∧
    countForks (prepare ⟨-2, false, false⟩ true) = 0 ∧
    Effect.publishCluster ∈ prepare ⟨-2, false, false⟩ true ∧
    Effect.publishProcmode "master" ∈ prepare ⟨-2, false, false⟩ true ∧
    Effect.onRegister "fork" ∈ prepare ⟨-2, false, false⟩ true ∧
    Effect.onRegister "online" ∈ prepare ⟨-2, false, false⟩ true ∧
    Effect.onRegister "listening" ∈ prepare ⟨-2, false, false⟩ true ∧
    Effect.onRegister "disconnect" ∈ prepare ⟨-2, false, false⟩ true ∧
    Effect.onRegister "exit" ∈ prepare ⟨-2, false, false⟩ true ∧
    Effect.latchRegister "logger:msg" ∈ prepare ⟨-2, false, false⟩ true ∧
    Effect.latchRegister "title:title" ∈ prepare ⟨-2, false, false⟩ true :=
  ⟨by decide, claim_C10 ⟨-2, false, false⟩ (by decide) rfl rfl⟩

/-- Claim C5: whenever the cluster option is zero or either daemon
flag is set, the core is fully inert: prepare emits no effect at all
(no forks, no publications, no registrations) and, provided nothing
else stored the master mode into ctx:procmode beforehand, stop emits
no effect and settles nothing either. -/
theorem claim_C5 (opts : Options) (isMaster : Bool) (init : Option String)
    (pools : Nat → List WorkerInfo) (fuel : Nat)
    (hgate : opts.cluster = 0 ∨ opts.daemon = true ∨ opts.daemon_kill = true)
    (hinit : init ≠ some "master") :
    prepare opts isMaster = [] ∧
    stop (procmodeAfter init opts isMaster) opts pools fuel = ([], none) := by
  have hpm : procmodeAfter init opts isMaster = init := by
    rcases hgate with h | h | h <;> simp [procmodeAfter, h]
  rw [hpm]
  constructor
  · rcases hgate with h | h | h <;> by_cases hc : opts.cluster = 0 <;>
      simp [prepare, h, hc]
  · simp [stop, hinit]

theorem claim_C5_witness :
    ((⟨0, false, false⟩ : Options).cluster = 0 ∨
      (⟨0, false, false⟩ : Options).daemon = true ∨
      (⟨0, false, false⟩ : Options).daemon_kill = true) ∧
    (none : Option String) ≠ some "master" ∧
    prepare ⟨0, false, false⟩ true = [] ∧
    stop (procmodeAfter none ⟨0, false, false⟩ true) ⟨0, false, false⟩
      (fun _ => []) 1 = ([], none) :=
  ⟨Or.inl rfl, by decide,
    claim_C5 ⟨0, false, false⟩ true none (fun _ => []) 1 (Or.inl rfl)
      (by decide)⟩

theorem drainRun_succ_empty (pools : Nat → List WorkerInfo) (fuel t : Nat)
    (h : pools t = []) :
    drainRun pools (fuel + 1) t = ([], some (Except.ok ())) := by
  simp [drainRun, drainTick, h]

theorem drainRun_succ_nonempty (pools : Nat → List WorkerInfo) (fuel t : Nat)
    (h : pools t ≠ []) :
    drainRun pools (fuel + 1) t =
      ((drainTick (pools t)).1 ++ (drainRun pools fuel (t + 1)).1,
       (drainRun pools fuel (t + 1)).2) := by
  simp [drainRun, drainTick, h]

theorem drainRun_none (pools : Nat → List WorkerInfo) :
    ∀ fuel t0, (∀ s, s < fuel → pools (t0 + s) ≠ []) →
      drainRun pools fuel t0 = (tickEffectsFrom pools t0 fuel, none) := by
  intro fuel
  induction fuel with
  | zero =>
    intro t0 _h
    simp [drainRun, tickEffectsFrom]
  | succ f ih =>
    intro t0 h
    have h0 : pools t0 ≠ [] := by simpa using h 0 (Nat.succ_pos f)
    rw [drainRun_succ_nonempty pools f t0 h0,
      ih (t0 + 1) (fun s hs => by
        have := h (s + 1) (by omega)
        rwa [show t0 + (s + 1) = t0 + 1 + s by omega] at this)]
    simp [tickEffectsFrom]

theorem drainRun_settles (pools : Nat → List WorkerInfo) :
    ∀ n fuel t0, n < fuel → pools (t0 + n) = [] →
      (∀ s, s < n → pools (t0 + s) ≠ []) →
      drainRun pools fuel t0 =
        (tickEffectsFrom pools t0 n, some (Except.ok ())) := by
  intro n
  induction n with
  | zero =>
    intro fuel t0 hf he _hp
    obtain ⟨f, rfl⟩ : ∃ f, fuel = f + 1 := ⟨fuel - 1, by omega⟩
    rw [drainRun_succ_empty pools f t0 (by simpa using he)]
    simp [tickEffectsFrom]
  | succ n ih =>
    intro fuel t0 hf he hp
    obtain ⟨f, rfl⟩ : ∃ f, fuel = f + 1 := ⟨fuel - 1, by omega⟩
    have h0 : pools t0 ≠ [] := by simpa using hp 0 (Nat.succ_pos n)
    rw [drainRun_succ_nonempty pools f t0 h0,
      ih f (t0 + 1) (by omega)
        (by rwa [show t0 + 1 + n = t0 + (n + 1) by omega])
        (fun s hs => by
          have := hp (s + 1) (by omega)
          rwa [show t0 + (s + 1) = t0 + 1 + s by omega] at this)]
    simp [tickEffectsFrom]

theorem drainRun_only_ok (pools : Nat → List WorkerInfo) :
    ∀ fuel t0 r, (drainRun pools fuel t0).2 = some r → r = Except.ok () := by
  intro fuel
  induction fuel with
  | zero => simp [drainRun]
  | succ f ih =>
    intro t0 r h
    by_cases hp : pools t0 = []
    · rw [drainRun_succ_empty pools f t0 hp] at h
      simpa using h.symm
    · rw [drainRun_succ_nonempty pools f t0 hp] at h
      exact ih (t0 + 1) r h

/-- Claim C2: with the gate passed (master mode, daemon flags unset),
the stop operation settles exactly when the pool schedule first
becomes empty: at the first empty tick t it resolves with success and
its effects are the announcement log, the graceful phase and the
effects of the ticks strictly before t (the drain loop stops there);
as long as every tick sees a nonempty pool it never settles; and any
settlement it ever produces is the success value, never a failure. -/
theorem claim_C2 (opts : Options) (pools : Nat → List WorkerInfo)
    (fuel t : Nat)
    (hd : opts.daemon = false) (hk : opts.daemon_kill = false)
    (hfuel : t < fuel) (hempty : pools t = [])
    (hprior : ∀ s, s < t → pools s ≠ []) :
    stop (some "master") opts pools fuel =
      (Effect.log "cluster" Severity.info "shutdown WORKER processes" ::
        (gracefulPhase (pools 0) ++ tickEffectsFrom pools 0 t),
       some (Except.ok ())) ∧
    (∀ f2, (∀ s, s < f2 → pools s ≠ []) →
      (stop (some "master") opts pools f2).2 = none) ∧
    (∀ f2 r, (stop (some "master") opts pools f2).2 = some r →
      r = Except.ok ()) := by
  have hrun := drainRun_settles pools t fuel 0 hfuel (by simpa using hempty)
    (fun s hs => by simpa using hprior s hs)
  refine ⟨?_, ?_, ?_⟩
  · simp only [stop, hd, hk]
    rw [hrun]
    simp
  · intro f2 hne
    have := drainRun_none pools f2 0 (fun s hs => by simpa using hne s hs)
    simp only [stop, hd, hk]
    rw [this]
    simp
  · intro f2 r h
    simp only [stop, hd, hk] at h
    exact drainRun_only_ok pools f2 0 r h

theorem claim_C2_witness :
    ((1 : Nat) < 2 ∧ poolsW 1 = [] ∧ ∀ s, s < 1 → poolsW s ≠ []) ∧
    (stop (some "master") ⟨1, false, false⟩ poolsW 2 =
      (Effect.log "cluster" Severity.info "shutdown WORKER processes" ::
        (gracefulPhase (poolsW 0) ++ tickEffectsFrom poolsW 0 1),
       some (Except.ok ())) ∧
     (∀ f2, (∀ s, s < f2 → poolsW s ≠ []) →
       (stop (some "master") ⟨1, false, false⟩ poolsW f2).2 = none) ∧
     (∀ f2 r, (stop (some "master") ⟨1, false, false⟩ poolsW f2).2 = some r →
       r = Except.ok ())) :=
  ⟨⟨by decide, by decide, by decide⟩,
    claim_C2 ⟨1, false, false⟩ poolsW 2 1 rfl rfl (by decide) (by decide)
      (by decide)⟩

theorem killAttempts_flatMap (pool : List WorkerInfo) :
    killAttempts (pool.flatMap (fun w =>
        if w.dead then []
        else
          [Effect.log "cluster" Severity.trace
             (workerTag w.id w.pid "to be killed now"),
           Effect.killAttempt w.id w.killFails])) =
      ((pool.filter fun w => !w.dead).map
        fun w => Effect.killAttempt w.id w.killFails) := by
  induction pool with
  | nil => simp [killAttempts]
  | cons w rest ih =>
    cases hw : w.dead <;> simp [List.flatMap_cons, hw, killAttempts, ih]

/-- Claim C7: during the drain phase, one tick issues kill attempts
exactly to the workers not yet dead, each attempt recording whether
its delivery fails; a failing delivery is swallowed: it removes no
later worker from the same pass, and the settlement of the whole
drain loop is unchanged if every delivery is made to succeed instead,
so no failure ever aborts the loop or reaches the caller (whose only
possible settlement stays the success value, by the tick settlement
depending on pool emptiness alone). -/
theorem claim_C7 (pool : List WorkerInfo) (pools : Nat → List WorkerInfo)
    (fuel t0 : Nat) :
    killAttempts (drainTick pool).1 =
      ((pool.filter fun w => !w.dead).map
        fun w => Effect.killAttempt w.id w.killFails) ∧
    (drainTick pool).2 =
      (if pool = [] then some (Except.ok ()) else none) ∧
    (drainRun (fun t => (pools t).map clearKillFail) fuel t0).2 =
      (drainRun pools fuel t0).2 := by
  refine ⟨?_, ?_, ?_⟩
  · by_cases hp : pool = []
    · simp [drainTick, hp, killAttempts]
    · simp only [drainTick, hp, if_false]
      exact killAttempts_flatMap pool
  · by_cases hp : pool = [] <;> simp [drainTick, hp]
  · induction fuel generalizing t0 with
    | zero => simp [drainRun]
    | succ f ih =>
      by_cases hp : pools t0 = []
      · rw [drainRun_succ_empty pools f t0 hp,
          drainRun_succ_empty _ f t0 (by simp [hp])]
      · have hp2 : (pools t0).map clearKillFail ≠ [] := by
          simpa using hp
        rw [drainRun_succ_nonempty pools f t0 hp,
          drainRun_succ_nonempty _ f t0 hp2]
        exact ih (t0 + 1)

/-- Claim C8, counterexample to the literal statement: invoking stop
with the pool already empty is not free of side effects, since the
source unconditionally emits the shutdown announcement log line
before entering the drain loop; at the concrete input below the
effect list of the invocation is nonempty. -/
theorem claim_C8_counterexample :
    (stop (some "master") ⟨1, false, false⟩ (fun _ => []) 1).1 ≠ [] := by
  decide

/-- Claim C8 (amended): once the WorkerPool is empty, the stop
operation resolves with success, and invoking it again performs no
side effects beyond emitting the single informational announcement
log line: no shutdown directives, no disconnects, no kill attempts,
no pool mutation. -/
theorem claim_C8 (opts : Options) (fuel : Nat)
    (hd : opts.daemon = false) (hk : opts.daemon_kill = false)
    (hf : 0 < fuel) :
    stop (some "master") opts (fun _ => []) fuel =
      ([Effect.log "cluster" Severity.info "shutdown WORKER processes"],
       some (Except.ok ())) := by
  obtain ⟨f, rfl⟩ : ∃ f, fuel = f + 1 := ⟨fuel - 1, by omega⟩
  simp only [stop, hd, hk]
  rw [drainRun_succ_empty _ f 0 rfl]
  simp [gracefulPhase]

theorem claim_C8_witness :
    (0 : Nat) < 1 ∧
    stop (some "master") ⟨2, false, false⟩ (fun _ => []) 1 =
      ([Effect.log "cluster" Severity.info "shutdown WORKER processes"],
       some (Except.ok ())) :=
  ⟨by decide, claim_C8 ⟨2, false, false⟩ 1 rfl rfl (by decide)⟩

theorem gracefulPhase_cons (x : WorkerInfo) (rest : List WorkerInfo) :
    gracefulPhase (x :: rest) =
      (if x.connected then
        [Effect.send x.id "shutdown", Effect.disconnect x.id]
       else []) ++ gracefulPhase rest := by
  simp [gracefulPhase]

theorem gracefulPhase_not_mem (i : Nat) (pool : List WorkerInfo)
    (h : ∀ u ∈ pool, u.id ≠ i) :
    sendsTo i (gracefulPhase pool) = 0 ∧
    discsTo i (gracefulPhase pool) = 0 := by
  induction pool with
  | nil => simp [gracefulPhase, sendsTo, discsTo]
  | cons x rest ih =>
    have hx : x.id ≠ i := h x (List.mem_cons_self x rest)
    have hr := ih (fun u hu => h u (List.mem_cons_of_mem x hu))
    rw [gracefulPhase_cons]
    cases hc : x.connected <;>
      simp [hc, sendsTo, discsTo, hx, hr.1, hr.2]

/-- Claim C4: in the graceful phase over a pool with pairwise distinct
worker ids, every worker whose IPC channel is connected receives
exactly one shutdown directive and exactly one disconnect, with the
directive sent strictly before its channel is closed (they occur
adjacently in the effect sequence); a worker whose channel is not
connected receives neither a directive nor a disconnect. -/
theorem claim_C4 (pool : List WorkerInfo) (w : WorkerInfo)
    (hids : (pool.map WorkerInfo.id).Nodup) (hw : w ∈ pool) :
    (w.connected = true →
      sendsTo w.id (gracefulPhase pool) = 1 ∧
      discsTo w.id (gracefulPhase pool) = 1 ∧
      ∃ pre post, gracefulPhase pool =
        pre ++ Effect.send w.id "shutdown" ::
          Effect.disconnect w.id :: post) ∧
    (w.connected = false →
      sendsTo w.id (gracefulPhase pool) = 0 ∧
      discsTo w.id (gracefulPhase pool) = 0) := by
  induction pool with
  | nil => simp at hw
  | cons x rest ih =>
    have hx_not : x.id ∉ rest.map WorkerInfo.id := by
      have := hids
      rw [List.map_cons, List.nodup_cons] at this
      exact this.1
    have hids' : (rest.map WorkerInfo.id).Nodup := by
      have := hids
      rw [List.map_cons, List.nodup_cons] at this
      exact this.2
    rcases List.mem_cons.mp hw with rfl | hwr
    · have hz := gracefulPhase_not_mem w.id rest (by
        intro u hu heq
        exact hx_not (heq ▸ List.mem_map.mpr ⟨u, hu, rfl⟩))
      constructor
      · intro hc
        rw [gracefulPhase_cons, hc]
        refine ⟨?_, ?_, [], gracefulPhase rest, by simp⟩
        · simp [sendsTo, discsTo, hz.1]
        · simp [sendsTo, discsTo, hz.2]
      · intro hc
        rw [gracefulPhase_cons, hc]
        simpa using hz
    · have hxw : x.id ≠ w.id := by
        intro heq
        exact hx_not (heq ▸ List.mem_map.mpr ⟨w, hwr, rfl⟩)
      have ihh := ih hids' hwr
      constructor
      · intro hc
        obtain ⟨hs, hd2, pre, post, hpp⟩ := ihh.1 hc
        rw [gracefulPhase_cons]
        cases hcx : x.connected
        · simpa [sendsTo, discsTo] using ⟨hs, hd2, pre, post, hpp⟩
        · refine ⟨?_, ?_, Effect.send x.id "shutdown" ::
            Effect.disconnect x.id :: pre, post, ?_⟩
          · simp [sendsTo, discsTo, hxw, hs]
          · simp [sendsTo, discsTo, hxw, hd2]
          · simp [hpp]
      · intro hc
        have := ihh.2 hc
        rw [gracefulPhase_cons]
        cases hcx : x.connected
        · simpa [sendsTo, discsTo] using this
        · simp [sendsTo, discsTo, hxw, this.1, this.2]

theorem claim_C4_witness :
    (wC4.connected = true →
      sendsTo wC4.id (gracefulPhase poolC4) = 1 ∧
      discsTo wC4.id (gracefulPhase poolC4) = 1 ∧
      ∃ pre post, gracefulPhase poolC4 =
        pre ++ Effect.send wC4.id "shutdown" ::
          Effect.disconnect wC4.id :: post) ∧
    (wC4.connected = false →
      sendsTo wC4.id (gracefulPhase poolC4) = 0 ∧
      discsTo wC4.id (gracefulPhase poolC4) = 0) :=
  claim_C4 poolC4 wC4 (by decide) (by decide)

end ClusterMod
